import Mathlib

/-
  Verification of the rama-rust HTTP routing client.

  Shallow embedding of the two source files:
    * src/builder.rs : value encoders and the PState query / depot append builders;
    * src/lib.rs     : the routing client (redirect loop, topology cache,
                       supervisor endpoint selection).

  External collaborators of the repository (the serde_json tree model, the
  url crate, the reqwest transport) are embedded at the granularity the
  source observes them: a JSON value is an inductive tree, a URL is a record
  of its components, the transport is a function from request index and
  target URL to a response, and the two parsing collaborators used by the
  redirect loop (Url::parse applied to the Location text, serde_json
  list-of-string parsing of the Supervisor-Locations header) are function
  parameters of the embedded loop.
-/

namespace RamaRust

/-- Subset of the serde_json Value tree that the builder constructs: the
encoders produce string values and the explicit navigators produce arrays.
Numbers and booleans appear only as opaque implicit navigator payloads. -/
inductive Value where
  | null
  | bool (b : Bool)
  | num (n : Int)
  | str (s : String)
  | arr (xs : List Value)

/-- Model of a Rust f32 as observed by the encoder: the only operation the
source applies to the float is its Display rendering inside format!, so the
value is embedded by that rendering. -/
structure F32 where
  display : String
deriving DecidableEq, Repr

/-- Embeds builder.rs rama_long: Value::String(format!("#__L{}", val)). -/
def rama_long (val : Int) : Value := .str ("#__L" ++ toString val)

/-- Embeds builder.rs rama_byte: Value::String(format!("#__B{}", val)). -/
def rama_byte (val : Int) : Value := .str ("#__B" ++ toString val)

/-- Embeds builder.rs rama_short: Value::String(format!("#__S{}", val)). -/
def rama_short (val : Int) : Value := .str ("#__S" ++ toString val)

/-- Embeds builder.rs rama_float: Value::String(format!("#__F{}", val)). -/
def rama_float (val : F32) : Value := .str ("#__F" ++ val.display)

/-- Embeds builder.rs rama_char: Value::String(format!("#__C{}", val)). -/
def rama_char (val : Char) : Value := .str ("#__C" ++ toString val)

/-- Embeds builder.rs rama_keyword: Value::String(format!("#__K{}", val)). -/
def rama_keyword (val : String) : Value := .str ("#__K" ++ val)

/-- Embeds builder.rs rama_function: Value::String(format!("#__f{}", name)). -/
def rama_function (name : String) : Value := .str ("#__f" ++ name)

/-- Embeds builder.rs rama_ops_function: rama_function(format!("Ops.{}", name)). -/
def rama_ops_function (name : String) : Value := rama_function ("Ops." ++ name)

/-- Embeds the PStateQueryBuilder state from builder.rs: module, pstate and
the accumulated path of navigator Values. The client reference is routing
state and is carried separately by the routing-client embedding below. -/
structure PStateQueryBuilder where
  module : String
  pstate : String
  path : List Value

namespace PStateQueryBuilder

/-- Embeds PStateQueryBuilder::new. -/
def new (module pstate : String) : PStateQueryBuilder :=
  { module := module, pstate := pstate, path := [] }

/-- Embeds nav: pushes an implicit navigator value onto the path. -/
def nav (b : PStateQueryBuilder) (value : Value) : PStateQueryBuilder :=
  { b with path := b.path ++ [value] }

/-- Embeds key: nav with a string key. -/
def key (b : PStateQueryBuilder) (k : String) : PStateQueryBuilder :=
  b.nav (.str k)

/-- Embeds filter_pred_fn: nav with a rama_function value. -/
def filter_pred_fn (b : PStateQueryBuilder) (functionName : String) : PStateQueryBuilder :=
  b.nav (rama_function functionName)

/-- Embeds add_explicit_nav: pushes the array [opName, arg0, arg1, ...]. -/
def add_explicit_nav (b : PStateQueryBuilder) (op : String) (args : List Value) :
    PStateQueryBuilder :=
  { b with path := b.path ++ [Value.arr (Value.str op :: args)] }

/-- Embeds all: appends the step ["all"]. -/
def all (b : PStateQueryBuilder) : PStateQueryBuilder :=
  b.add_explicit_nav "all" []

/-- Embeds must: appends the step ["must", key1, key2, ...]. -/
def must (b : PStateQueryBuilder) (keys : List Value) : PStateQueryBuilder :=
  b.add_explicit_nav "must" keys

/-- Embeds map_vals: appends the step ["mapVals"]. -/
def map_vals (b : PStateQueryBuilder) : PStateQueryBuilder :=
  b.add_explicit_nav "mapVals" []

/-- Embeds filter_selected: builds ["filterSelected"], extends it with the
elements of the sub-path (Vec::extend flattens one level), and pushes the
resulting single array step. -/
def filter_selected (b : PStateQueryBuilder) (path_to_filter : List Value) :
    PStateQueryBuilder :=
  { b with path := b.path ++ [Value.arr (Value.str "filterSelected" :: path_to_filter)] }

/-- Embeds subselect: same shape as filter_selected with op "subselect". -/
def subselect (b : PStateQueryBuilder) (sub_path : List Value) : PStateQueryBuilder :=
  { b with path := b.path ++ [Value.arr (Value.str "subselect" :: sub_path)] }

end PStateQueryBuilder

/-- Model of a url crate Url as the components the routing client reads or
writes: scheme, host, optional port, path and optional query. The client
only builds hierarchical http URLs, rewrites host and port on them, and
renders them to text. -/
structure Url where
  scheme : String
  host : String
  port : Option Nat
  path : String
  query : Option String
deriving DecidableEq, Repr

/-- Models the url crate host validation performed by Url::set_host for the
special-scheme URLs this client builds: the host text must be non-empty and
free of URL delimiter characters. -/
def hostValid (h : String) : Bool :=
  !h.isEmpty && h.toList.all (fun c =>
    !(c = '/' || c = ':' || c = '#' || c = '?' || c = '@' || c = ' '))

/-- Models Url::set_host(Some(h)): replaces the host when the host text is
valid, fails otherwise. -/
def Url.set_host (u : Url) (h : String) : Option Url :=
  if hostValid h then some { u with host := h } else none

/-- Models Url::set_port(Some(p)): on the hierarchical http URLs this client
manipulates, setting an in-range port always succeeds. -/
def Url.set_port (u : Url) (p : Nat) : Option Url :=
  some { u with port := some p }

/-- Models Url::to_string, used for the UnexpectedStatus error payload. -/
def Url.render (u : Url) : String :=
  u.scheme ++ "://" ++ u.host ++
    (match u.port with
     | some p => ":" ++ toString p
     | none => "") ++
    u.path ++
    (match u.query with
     | some q => "?" ++ q
     | none => "")

/-- Embeds the ClientError enum from lib.rs. Payloads carried by external
error types (reqwest::Error, serde_json::Error, url::ParseError) are not
inspected by the client, so those constructors are bare. -/
inductive ClientError where
  | Http
  | Json
  | Url
  | NoSupervisor (module : String)
  | UnexpectedStatus (status : Nat) (url : String)
  | MissingLocationHeader
  | MissingSupervisorLocationsHeader
  | InvalidSupervisorLocations
  | MaxRedirectsExceeded
deriving DecidableEq, Repr

/-- Model of the supervisor_cache HashMap String (Vec String) as an
association list in which an inserted entry shadows older entries for the
same key; observations go through cacheGet. -/
abbrev Cache : Type := List (String × List String)

/-- Models HashMap::get(module).cloned(): the value of the most recently
inserted entry for the key, if any. -/
def cacheGet (module : String) (c : Cache) : Option (List String) :=
  match (List.find? (fun p => p.1 == module) c) with
  | some p => some p.2
  | none => none

/-- Models HashMap::insert(module, sups): the new entry shadows any older
entry for the key. -/
def cacheInsert (module : String) (sups : List String) (c : Cache) : Cache :=
  (module, sups) :: c

/-- Embeds str::split_once on character lists: split at the first occurrence
of the separator. -/
def splitOnceList : List Char → Char → Option (List Char × List Char)
  | [], _ => none
  | x :: xs, c =>
    if x = c then some ([], xs)
    else
      match splitOnceList xs c with
      | none => none
      | some (l, r) => some (x :: l, r)

/-- Embeds str::split_once(c): the text before and after the first
occurrence of c, or none when c does not occur. -/
def split_once (s : String) (c : Char) : Option (String × String) :=
  match splitOnceList s.toList c with
  | none => none
  | some (l, r) => some (String.mk l, String.mk r)

/-- Embeds str::parse::<u16>: an optional leading plus sign, at least one
decimal digit, value at most 65535. -/
def parseU16 (s : String) : Option Nat :=
  let cs :=
    match s.toList with
    | '+' :: rest => rest
    | cs => cs
  if cs.isEmpty then none
  else if cs.all Char.isDigit then
    let n := cs.foldl (fun a c => a * 10 + (c.toNat - 48)) 0
    if n ≤ 65535 then some n else none
  else none

/-- Models SliceRandom::choose: some element of the list when it is
non-empty (the random draw is embedded as an arbitrary index reduced by the
list length), none when the list is empty. -/
def chooseIdx {α : Type} (l : List α) (idx : Nat) : Option α :=
  l.get? (idx % l.length)

/-- Embeds Client::get_request_url from lib.rs: consult the cache for the
module; on a missing or empty entry, or on any failure while parsing the
chosen supervisor entry or rewriting the URL, fall back to the base request
URL; otherwise return the base URL with host and port replaced by the chosen
supervisor. The random generator is embedded as the index argument. -/
def get_request_url (cache : Cache) (base_request_url : Url) (module : String)
    (randIdx : Nat) : Except ClientError Url :=
  match cacheGet module cache with
  | none => .ok base_request_url
  | some supervisor_list =>
    if supervisor_list.isEmpty then .ok base_request_url
    else
      match chooseIdx supervisor_list randIdx with
      | none => .ok base_request_url
      | some supervisor_host_port =>
        match split_once supervisor_host_port ':' with
        | none => .ok base_request_url
        | some (host, port_str) =>
          match parseU16 port_str with
          | none => .ok base_request_url
          | some port =>
            match base_request_url.set_host host with
            | none => .ok base_request_url
            | some u1 =>
              match u1.set_port port with
              | none => .ok base_request_url
              | some u2 => .ok u2

/-- Decidable well-formedness of a cached supervisor entry: it splits at a
colon, the port text parses as u16 and the host text is valid for
Url::set_host. -/
def wellFormedEntry (e : String) : Bool :=
  match split_once e ':' with
  | none => false
  | some (h, p) => (parseU16 p).isSome && hostValid h

/-- Model of an HTTP header value as the routing client observes it: absent,
present but not convertible to text (HeaderValue::to_str fails), or present
as text. -/
inductive Hdr where
  | missing
  | nonText
  | text (s : String)
deriving DecidableEq, Repr

/-- Model of a reqwest response as the routing client observes it: the
status code, the two headers the 308 branch reads, and the decoded body
(some r when response.json::<R>() succeeds, none when decoding fails). -/
structure Response (R : Type) where
  status : Nat
  location : Hdr
  supervisorLocations : Hdr
  body : Option R

/-- Observable outcome of one send_request call: the returned result, the
final supervisor cache, and the number of HTTP requests performed. -/
structure RunResult (R : Type) where
  result : Except ClientError R
  cache : Cache
  requests : Nat

/-- Embeds the redirect loop of Client::send_request from lib.rs. The fuel
argument is max_redirects minus the attempts counter: the source checks
attempts >= max_redirects at the top of the loop and increments attempts
before sending, so the loop body runs exactly while fuel is positive. The
transport is a function from request index and resolved target URL to the
response; parseUrl embeds Url::parse on the Location text and parseList
embeds the serde_json parse of the Supervisor-Locations text. Note the
source inserts into the supervisor cache before parsing the Location text
as a URL, so the Url error branch returns the already-updated cache. -/
def send_request_go {R : Type} (parseUrl : String → Option Url)
    (parseList : String → Option (List String))
    (transport : Nat → Url → Response R) (rand : Nat → Nat) (module : String) :
    Nat → Nat → Cache → Url → RunResult R
  | 0, requests, cache, _ =>
    { result := .error .MaxRedirectsExceeded, cache := cache, requests := requests }
  | fuel + 1, requests, cache, current_url =>
    match get_request_url cache current_url module (rand requests) with
    | .error e => { result := .error e, cache := cache, requests := requests }
    | .ok target_url =>
      let response := transport requests target_url
      if response.status = 200 then
        match response.body with
        | some r => { result := .ok r, cache := cache, requests := requests + 1 }
        | none => { result := .error .Http, cache := cache, requests := requests + 1 }
      else if response.status = 308 then
        match response.location with
        | .missing =>
          { result := .error .MissingLocationHeader, cache := cache,
            requests := requests + 1 }
        | .nonText =>
          { result := .error .MissingLocationHeader, cache := cache,
            requests := requests + 1 }
        | .text location_str =>
          match response.supervisorLocations with
          | .missing =>
            { result := .error .MissingSupervisorLocationsHeader, cache := cache,
              requests := requests + 1 }
          | .nonText =>
            { result := .error .MissingSupervisorLocationsHeader, cache := cache,
              requests := requests + 1 }
          | .text supervisor_str =>
            match parseList supervisor_str with
            | none =>
              { result := .error .InvalidSupervisorLocations, cache := cache,
                requests := requests + 1 }
            | some supervisors =>
              let cache2 := cacheInsert module supervisors cache
              match parseUrl location_str with
              | some new_url =>
                send_request_go parseUrl parseList transport rand module
                  fuel (requests + 1) cache2 new_url
              | none =>
                { result := .error .Url, cache := cache2, requests := requests + 1 }
      else
        { result := .error (.UnexpectedStatus response.status target_url.render),
          cache := cache, requests := requests + 1 }

/-- Embeds Client::send_request given the already-built initial URL: run the
redirect loop with the attempts counter at zero, so the fuel equals
max_redirects. Initial URL construction (Client::build_url) precedes the
loop in the source and is outside every claim. -/
def send_request {R : Type} (parseUrl : String → Option Url)
    (parseList : String → Option (List String))
    (transport : Nat → Url → Response R) (rand : Nat → Nat) (module : String)
    (max_redirects : Nat) (initial_url : Url) (cache : Cache) : RunResult R :=
  send_request_go parseUrl parseList transport rand module
    max_redirects 0 cache initial_url

/-- Concrete URL used by the witness and counterexample instances. -/
def exampleUrl : Url :=
  { scheme := "http", host := "conductor", port := some 8888,
    path := "/rest/m/pstate/p/select", query := none }

/-- Claim C7: every value encoder returns its kind sentinel followed by the
value canonical text: rama_long uses "#__L" with decimal text, rama_byte
"#__B", rama_short "#__S", rama_float "#__F" with the float Display text,
rama_char "#__C" with the character itself, rama_keyword "#__K", and
rama_function "#__f" with the name verbatim; in particular
rama_long (-42) = "#__L-42", rama_float 1.5 = "#__F1.5" and
rama_char x = "#__Cx". Each encoder is a total function, so encoding never
fails. -/
theorem C7_encoders_sentinel_and_text :
    (∀ v : Int, rama_long v = .str ("#__L" ++ toString v)) ∧
    (∀ v : Int, rama_byte v = .str ("#__B" ++ toString v)) ∧
    (∀ v : Int, rama_short v = .str ("#__S" ++ toString v)) ∧
    (∀ v : F32, rama_float v = .str ("#__F" ++ v.display)) ∧
    (∀ v : Char, rama_char v = .str ("#__C" ++ toString v)) ∧
    (∀ v : String, rama_keyword v = .str ("#__K" ++ v)) ∧
    (∀ v : String, rama_function v = .str ("#__f" ++ v)) ∧
    rama_long (-42) = .str "#__L-42" ∧
    rama_float { display := "1.5" } = .str "#__F1.5" ∧
    rama_char 'x' = .str "#__Cx" := by
  exact ⟨fun v => rfl, fun v => rfl, fun v => rfl, fun v => rfl, fun v => rfl,
    fun v => rfl, fun v => rfl, rfl, rfl, rfl⟩

/-- Claim C8: for a sub-path with steps [A, B], filter_selected appends the
single step ["filterSelected", A, B] and subselect appends
["subselect", A, B]: the sub-path steps become individual trailing
arguments, and the appended step is never the nested-array form
["filterSelected", [A, B]]. -/
theorem C8_subpath_flattening (b : PStateQueryBuilder) (A B : Value) :
    (b.filter_selected [A, B]).path =
      b.path ++ [Value.arr [Value.str "filterSelected", A, B]] ∧
    (b.subselect [A, B]).path =
      b.path ++ [Value.arr [Value.str "subselect", A, B]] ∧
    (b.filter_selected [A, B]).path ≠
      b.path ++ [Value.arr [Value.str "filterSelected", Value.arr [A, B]]] ∧
    (b.subselect [A, B]).path ≠
      b.path ++ [Value.arr [Value.str "subselect", Value.arr [A, B]]] := by
  refine ⟨rfl, rfl, fun h => ?_, fun h => ?_⟩ <;>
  · have h2 := List.append_cancel_left h
    simp only [List.cons.injEq, Value.arr.injEq] at h2
    exact List.cons_ne_nil B [] h2.1.2.2

/-- Helper: get_request_url returns ok on every input; each guard falls back
to the base URL instead of erroring. -/
theorem get_request_url_ok (cache : Cache) (base : Url) (module : String)
    (idx : Nat) : ∃ u, get_request_url cache base module idx = .ok u := by
  unfold get_request_url
  repeat first
  | exact ⟨_, rfl⟩
  | split

/-- Helper: an inserted cache entry is the one cacheGet observes. -/
theorem cacheGet_cacheInsert (module : String) (sups : List String) (c : Cache) :
    cacheGet module (cacheInsert module sups c) = some sups := by
  simp [cacheGet, cacheInsert, List.find?]

/-- Claim C5: for a cached non-empty topology list whose entries are all
well-formed host:port text, get_request_url resolves to a URL whose host and
port come from one element of the cached list and which is otherwise the
base URL unchanged (scheme, path, query untouched); the chosen host:port is
always an element of the cached list. -/
theorem C5_resolved_endpoint_from_cache (cache : Cache) (base : Url)
    (module : String) (idx : Nat) (l : List String)
    (hl : cacheGet module cache = some l) (hne : l ≠ [])
    (hwf : ∀ e ∈ l, wellFormedEntry e = true) :
    ∃ e ∈ l, ∃ h p n, split_once e ':' = some (h, p) ∧ parseU16 p = some n ∧
      get_request_url cache base module idx =
        .ok { base with host := h, port := some n } := by
  have hlen : 0 < l.length := List.length_pos.mpr hne
  have hmod : idx % l.length < l.length := Nat.mod_lt _ hlen
  set e := l.get ⟨idx % l.length, hmod⟩ with he
  have hmem : e ∈ l := List.get_mem l _ _
  have hch : chooseIdx l idx = some e := by
    simp [chooseIdx, List.get?_eq_get hmod, he]
  have hwfe := hwf e hmem
  unfold wellFormedEntry at hwfe
  cases hsp : split_once e ':' with
  | none => rw [hsp] at hwfe; exact absurd hwfe (by simp)
  | some hp =>
    obtain ⟨h, p⟩ := hp
    rw [hsp] at hwfe
    simp only [Bool.and_eq_true, Option.isSome_iff_exists] at hwfe
    obtain ⟨⟨n, hn⟩, hhv⟩ := hwfe
    refine ⟨e, hmem, h, p, n, hsp, hn, ?_⟩
    have hemp : l.isEmpty = false := by
      cases l with
      | nil => exact absurd rfl hne
      | cons a as => rfl
    simp [get_request_url, hl, hemp, hch, hsp, hn, Url.set_host, Url.set_port, hhv]

/-- Witness for C5 at a concrete two-endpoint cache. -/
theorem C5_witness :
    ∃ e ∈ ["h1:1", "h2:2"], ∃ h p n,
      split_once e ':' = some (h, p) ∧ parseU16 p = some n ∧
      get_request_url [("m", ["h1:1", "h2:2"])]
          { scheme := "http", host := "c", port := some 8888,
            path := "/rest/m/x", query := none } "m" 1 =
        .ok { scheme := "http", host := h, port := some n,
              path := "/rest/m/x", query := none } :=
  C5_resolved_endpoint_from_cache [("m", ["h1:1", "h2:2"])]
    { scheme := "http", host := "c", port := some 8888, path := "/rest/m/x",
      query := none } "m" 1 ["h1:1", "h2:2"] (by decide) (by decide) (by decide)

/-- Claim C9: updating the cache entry for a module to the empty list makes
endpoint resolution behave exactly as when no entry exists: in both cases
get_request_url returns the current target URL unchanged. -/
theorem C9_empty_entry_equals_absent (c : Cache) (base : Url)
    (module : String) (idx : Nat) (habs : cacheGet module c = none) :
    get_request_url (cacheInsert module [] c) base module idx = .ok base ∧
    get_request_url c base module idx = .ok base := by
  constructor
  · have : cacheGet module (cacheInsert module [] c) = some [] := by
      simp [cacheGet, cacheInsert, List.find?]
    unfold get_request_url
    rw [this]
    rfl
  · unfold get_request_url
    rw [habs]

/-- Witness for C9 at a concrete cache with no entry for the module. -/
theorem C9_witness :
    get_request_url (cacheInsert "m" [] [("other", ["h:1"])])
        { scheme := "http", host := "c", port := some 8888, path := "/rest/m/x",
          query := none } "m" 0 = .ok
        { scheme := "http", host := "c", port := some 8888, path := "/rest/m/x",
          query := none } ∧
    get_request_url [("other", ["h:1"])]
        { scheme := "http", host := "c", port := some 8888, path := "/rest/m/x",
          query := none } "m" 0 = .ok
        { scheme := "http", host := "c", port := some 8888, path := "/rest/m/x",
          query := none } :=
  C9_empty_entry_equals_absent [("other", ["h:1"])]
    { scheme := "http", host := "c", port := some 8888, path := "/rest/m/x",
      query := none } "m" 0 (by decide)

/-- Claim C10: get_request_url never returns an error; moreover if the
randomly chosen cached supervisor entry is malformed (no colon, a port that
does not parse as u16, or a host that cannot be set on the URL), resolution
silently falls back to the unmodified base URL. -/
theorem C10_resolution_never_fails (cache : Cache) (base : Url)
    (module : String) (idx : Nat) :
    (∃ u, get_request_url cache base module idx = .ok u) ∧
    (∀ l e, cacheGet module cache = some l → chooseIdx l idx = some e →
      (split_once e ':' = none ∨
        ∃ h p, split_once e ':' = some (h, p) ∧
          (parseU16 p = none ∨ base.set_host h = none)) →
      get_request_url cache base module idx = .ok base) := by
  refine ⟨get_request_url_ok cache base module idx, ?_⟩
  intro l e hl hch hbad
  have hne : l.isEmpty = false := by
    cases l with
    | nil => simp [chooseIdx] at hch
    | cons a as => rfl
  rcases hbad with hnone | ⟨h, p, hsp, hrest⟩
  · simp [get_request_url, hl, hne, hch, hnone]
  · rcases hrest with hport | hhost
    · simp [get_request_url, hl, hne, hch, hsp, hport]
    · cases hp : parseU16 p with
      | none => simp [get_request_url, hl, hne, hch, hsp, hp]
      | some n => simp [get_request_url, hl, hne, hch, hsp, hp, hhost]

/-- Witness for C10 at a cache whose entry for the module has no colon. -/
theorem C10_witness :
    (∃ u, get_request_url [("m", ["bad"])]
        { scheme := "http", host := "c", port := some 8888, path := "/rest/m/x",
          query := none } "m" 0 = .ok u) ∧
    get_request_url [("m", ["bad"])]
        { scheme := "http", host := "c", port := some 8888, path := "/rest/m/x",
          query := none } "m" 0 = .ok
        { scheme := "http", host := "c", port := some 8888, path := "/rest/m/x",
          query := none } := by
  have h := C10_resolution_never_fails [("m", ["bad"])]
    { scheme := "http", host := "c", port := some 8888, path := "/rest/m/x",
      query := none } "m" 0
  exact ⟨h.1, h.2 ["bad"] "bad" (by decide) (by decide) (Or.inl (by decide))⟩

/-- Helper: one loop iteration on a valid 308 response steps to the next
iteration with the cache overwritten and the target moved to the parsed
Location URL. The response body is arbitrary since the 308 branch never
reads it. -/
theorem send_request_go_redirect_step {R : Type} (pu : String → Option Url)
    (pl : String → Option (List String)) (t : Nat → Url → Response R)
    (rand : Nat → Nat) (module : String) (f requests : Nat) (cache : Cache)
    (url target : Url) (locS supS : String) (b : Option R)
    (sups : List String) (newUrl : Url)
    (ht : get_request_url cache url module (rand requests) = .ok target)
    (htr : t requests target =
      { status := 308, location := .text locS,
        supervisorLocations := .text supS, body := b })
    (hpl : pl supS = some sups) (hpu : pu locS = some newUrl) :
    send_request_go pu pl t rand module (f + 1) requests cache url =
      send_request_go pu pl t rand module f (requests + 1)
        (cacheInsert module sups cache) newUrl := by
  simp [send_request_go, ht, htr, hpl, hpu]

/-- Helper: one loop iteration on a 200 response with a decodable body
returns that body, leaving the cache as it stands, after one more request. -/
theorem send_request_go_ok_step {R : Type} (pu : String → Option Url)
    (pl : String → Option (List String)) (t : Nat → Url → Response R)
    (rand : Nat → Nat) (module : String) (f requests : Nat) (cache : Cache)
    (url target : Url) (loc sup : Hdr) (r : R)
    (ht : get_request_url cache url module (rand requests) = .ok target)
    (htr : t requests target =
      { status := 200, location := loc,
        supervisorLocations := sup, body := some r }) :
    send_request_go pu pl t rand module (f + 1) requests cache url =
      { result := .ok r, cache := cache, requests := requests + 1 } := by
  simp [send_request_go, ht, htr]

/-- Helper: when every request is answered by a valid 308 redirect, the loop
consumes all its fuel and fails with MaxRedirectsExceeded, issuing exactly
fuel requests. -/
theorem send_request_go_exhausts {R : Type} (pu : String → Option Url)
    (pl : String → Option (List String)) (t : Nat → Url → Response R)
    (rand : Nat → Nat) (module : String) (locStr supStr : Nat → String)
    (locUrl : Nat → Url) (topo : Nat → List String)
    (htr : ∀ i u, t i u =
      { status := 308, location := .text (locStr i),
        supervisorLocations := .text (supStr i), body := none })
    (hpu : ∀ i, pu (locStr i) = some (locUrl i))
    (hpl : ∀ i, pl (supStr i) = some (topo i)) :
    ∀ (fuel requests : Nat) (cache : Cache) (url : Url),
      (send_request_go pu pl t rand module fuel requests cache url).result =
        .error .MaxRedirectsExceeded ∧
      (send_request_go pu pl t rand module fuel requests cache url).requests =
        requests + fuel := by
  intro fuel
  induction fuel with
  | zero => intro requests cache url; exact ⟨rfl, rfl⟩
  | succ f ih =>
    intro requests cache url
    obtain ⟨target, ht⟩ := get_request_url_ok cache url module (rand requests)
    rw [send_request_go_redirect_step pu pl t rand module f requests cache url
      target (locStr requests) (supStr requests) none (topo requests)
      (locUrl requests) ht (htr requests target) (hpl requests) (hpu requests)]
    obtain ⟨h1, h2⟩ := ih (requests + 1) (cacheInsert module (topo requests) cache)
      (locUrl requests)
    exact ⟨h1, by rw [h2]; omega⟩

/-- Claim C3: when the transport answers every request with a valid 308
redirect, a run whose redirect budget is max_redirects fails with
MaxRedirectsExceeded and performs exactly max_redirects requests, hence no
more than max_redirects. -/
theorem C3_max_redirects_exhausted {R : Type} (pu : String → Option Url)
    (pl : String → Option (List String)) (t : Nat → Url → Response R)
    (rand : Nat → Nat) (module : String) (max_redirects : Nat)
    (initial_url : Url) (cache : Cache) (locStr supStr : Nat → String)
    (locUrl : Nat → Url) (topo : Nat → List String)
    (htr : ∀ i u, t i u =
      { status := 308, location := .text (locStr i),
        supervisorLocations := .text (supStr i), body := none })
    (hpu : ∀ i, pu (locStr i) = some (locUrl i))
    (hpl : ∀ i, pl (supStr i) = some (topo i)) :
    (send_request pu pl t rand module max_redirects initial_url cache).result =
      .error .MaxRedirectsExceeded ∧
    (send_request pu pl t rand module max_redirects initial_url cache).requests =
      max_redirects ∧
    (send_request pu pl t rand module max_redirects initial_url cache).requests ≤
      max_redirects := by
  obtain ⟨h1, h2⟩ := send_request_go_exhausts pu pl t rand module locStr supStr
    locUrl topo htr hpu hpl max_redirects 0 cache initial_url
  refine ⟨h1, ?_, ?_⟩ <;> rw [send_request] <;> omega

/-- Witness for C3: a constant valid-308 transport with budget 5. -/
theorem C3_witness :
    (send_request (R := Nat) (fun _ => some exampleUrl) (fun _ => some ["h:1"])
        (fun _ _ =>
          { status := 308, location := .text "L",
            supervisorLocations := .text "S", body := none })
        (fun _ => 0) "m" 5 exampleUrl []).result =
      .error .MaxRedirectsExceeded ∧
    (send_request (R := Nat) (fun _ => some exampleUrl) (fun _ => some ["h:1"])
        (fun _ _ =>
          { status := 308, location := .text "L",
            supervisorLocations := .text "S", body := none })
        (fun _ => 0) "m" 5 exampleUrl []).requests = 5 ∧
    (send_request (R := Nat) (fun _ => some exampleUrl) (fun _ => some ["h:1"])
        (fun _ _ =>
          { status := 308, location := .text "L",
            supervisorLocations := .text "S", body := none })
        (fun _ => 0) "m" 5 exampleUrl []).requests ≤ 5 :=
  C3_max_redirects_exhausted (fun _ => some exampleUrl) (fun _ => some ["h:1"])
    (fun _ _ =>
      { status := 308, location := .text "L",
        supervisorLocations := .text "S", body := none })
    (fun _ => 0) "m" 5 exampleUrl [] (fun _ => "L") (fun _ => "S")
    (fun _ => exampleUrl) (fun _ => ["h:1"])
    (fun _ _ => rfl) (fun _ => rfl) (fun _ => rfl)

/-- Helper: a run that is answered by valid 308 redirects for its first k
requests (counting from the current attempt index) and then by a 200 with a
decodable body returns that body after k + 1 further requests, and the cache
entry for the module is the topology of the last redirect (unchanged when
k = 0). -/
theorem send_request_go_redirects_then_ok {R : Type} (pu : String → Option Url)
    (pl : String → Option (List String)) (t : Nat → Url → Response R)
    (rand : Nat → Nat) (module : String) (locStr supStr : Nat → String)
    (locUrl : Nat → Url) (topo : Nat → List String) (r : R) :
    ∀ (k fuel requests : Nat) (cache : Cache) (url : Url),
      k < fuel →
      (∀ i, i < k → ∀ u, t (requests + i) u =
        { status := 308, location := .text (locStr (requests + i)),
          supervisorLocations := .text (supStr (requests + i)), body := none }) →
      (∀ u, t (requests + k) u =
        { status := 200, location := .missing, supervisorLocations := .missing,
          body := some r }) →
      (∀ i, i < k → pu (locStr (requests + i)) = some (locUrl (requests + i))) →
      (∀ i, i < k → pl (supStr (requests + i)) = some (topo (requests + i))) →
      (send_request_go pu pl t rand module fuel requests cache url).result = .ok r ∧
      (send_request_go pu pl t rand module fuel requests cache url).requests =
        requests + k + 1 ∧
      cacheGet module
          (send_request_go pu pl t rand module fuel requests cache url).cache =
        (if k = 0 then cacheGet module cache
         else some (topo (requests + k - 1))) := by
  intro k
  induction k with
  | zero =>
    intro fuel requests cache url hk hred hok hpu hpl
    obtain ⟨f, rfl⟩ : ∃ f, fuel = f + 1 := ⟨fuel - 1, by omega⟩
    obtain ⟨target, ht⟩ := get_request_url_ok cache url module (rand requests)
    rw [send_request_go_ok_step pu pl t rand module f requests cache url target
      .missing .missing r ht (by simpa using hok target)]
    exact ⟨rfl, rfl, by simp⟩
  | succ k ih =>
    intro fuel requests cache url hk hred hok hpu hpl
    obtain ⟨f, rfl⟩ : ∃ f, fuel = f + 1 := ⟨fuel - 1, by omega⟩
    obtain ⟨target, ht⟩ := get_request_url_ok cache url module (rand requests)
    rw [send_request_go_redirect_step pu pl t rand module f requests cache url
      target (locStr requests) (supStr requests) none (topo requests)
      (locUrl requests) ht
      (by simpa using hred 0 (Nat.succ_pos k) target)
      (by simpa using hpl 0 (Nat.succ_pos k))
      (by simpa using hpu 0 (Nat.succ_pos k))]
    have harith : ∀ i : Nat, requests + 1 + i = requests + (i + 1) := fun i => by
      omega
    obtain ⟨r1, r2, r3⟩ := ih f (requests + 1)
      (cacheInsert module (topo requests) cache) (locUrl requests)
      (by omega)
      (fun i hi u => by rw [harith i]; exact hred (i + 1) (by omega) u)
      (fun u => by rw [harith k]; exact hok u)
      (fun i hi => by rw [harith i]; exact hpu (i + 1) (by omega))
      (fun i hi => by rw [harith i]; exact hpl (i + 1) (by omega))
    refine ⟨r1, by rw [r2]; omega, ?_⟩
    rw [r3]
    rcases Nat.eq_zero_or_pos k with hk0 | hkpos
    · subst hk0
      simp [cacheGet_cacheInsert]
    · have hne : k ≠ 0 := by omega
      have hne2 : k + 1 ≠ 0 := by omega
      rw [if_neg hne, if_neg hne2]
      congr 2
      omega

/-- Claim C1: with k < max_redirects, a transport answering the first k
requests with valid 308 redirects and the next request with a 200 carrying
a decodable body makes send_request succeed with exactly k + 1 requests
performed, and the final cache entry for the module is exactly the topology
carried by the last (k-th) redirect; with k = 0 the cache entry is
untouched. -/
theorem C1_redirect_loop_success {R : Type} (pu : String → Option Url)
    (pl : String → Option (List String)) (t : Nat → Url → Response R)
    (rand : Nat → Nat) (module : String) (k max_redirects : Nat)
    (initial_url : Url) (cache : Cache) (locStr supStr : Nat → String)
    (locUrl : Nat → Url) (topo : Nat → List String) (r : R)
    (hk : k < max_redirects)
    (hred : ∀ i, i < k → ∀ u, t i u =
      { status := 308, location := .text (locStr i),
        supervisorLocations := .text (supStr i), body := none })
    (hok : ∀ u, t k u =
      { status := 200, location := .missing, supervisorLocations := .missing,
        body := some r })
    (hpu : ∀ i, i < k → pu (locStr i) = some (locUrl i))
    (hpl : ∀ i, i < k → pl (supStr i) = some (topo i)) :
    (send_request pu pl t rand module max_redirects initial_url cache).result =
      .ok r ∧
    (send_request pu pl t rand module max_redirects initial_url cache).requests =
      k + 1 ∧
    cacheGet module
        (send_request pu pl t rand module max_redirects initial_url cache).cache =
      (if k = 0 then cacheGet module cache else some (topo (k - 1))) := by
  obtain ⟨r1, r2, r3⟩ := send_request_go_redirects_then_ok pu pl t rand module
    locStr supStr locUrl topo r k max_redirects 0 cache initial_url hk
    (fun i hi u => by simpa using hred i hi u)
    (fun u => by simpa using hok u)
    (fun i hi => by simpa using hpu i hi)
    (fun i hi => by simpa using hpl i hi)
  refine ⟨r1, ?_, ?_⟩
  · unfold send_request
    rw [r2]
    omega
  · unfold send_request
    rw [r3]
    simp

/-- Witness for C1 with k = 1: one valid redirect, then a 200 carrying 7. -/
theorem C1_witness :
    (send_request (R := Nat) (fun _ => some exampleUrl) (fun _ => some ["h:1"])
        (fun i _ =>
          match i with
          | 0 =>
            { status := 308, location := .text "L",
              supervisorLocations := .text "S", body := none }
          | _ + 1 =>
            { status := 200, location := .missing,
              supervisorLocations := .missing, body := some 7 })
        (fun _ => 0) "m" 5 exampleUrl []).result = .ok 7 ∧
    (send_request (R := Nat) (fun _ => some exampleUrl) (fun _ => some ["h:1"])
        (fun i _ =>
          match i with
          | 0 =>
            { status := 308, location := .text "L",
              supervisorLocations := .text "S", body := none }
          | _ + 1 =>
            { status := 200, location := .missing,
              supervisorLocations := .missing, body := some 7 })
        (fun _ => 0) "m" 5 exampleUrl []).requests = 2 ∧
    cacheGet "m"
        (send_request (R := Nat) (fun _ => some exampleUrl) (fun _ => some ["h:1"])
          (fun i _ =>
            match i with
            | 0 =>
              { status := 308, location := .text "L",
                supervisorLocations := .text "S", body := none }
            | _ + 1 =>
              { status := 200, location := .missing,
                supervisorLocations := .missing, body := some 7 })
          (fun _ => 0) "m" 5 exampleUrl []).cache = some ["h:1"] := by
  have h := C1_redirect_loop_success (R := Nat) (fun _ => some exampleUrl)
    (fun _ => some ["h:1"])
    (fun i _ =>
      match i with
      | 0 =>
        { status := 308, location := .text "L",
          supervisorLocations := .text "S", body := none }
      | _ + 1 =>
        { status := 200, location := .missing,
          supervisorLocations := .missing, body := some 7 })
    (fun _ => 0) "m" 1 5 exampleUrl [] (fun _ => "L") (fun _ => "S")
    (fun _ => exampleUrl) (fun _ => ["h:1"]) 7 (by omega)
    (fun i hi u =>
      match i, hi with
      | 0, _ => rfl)
    (fun u => rfl)
    (fun i hi =>
      match i, hi with
      | 0, _ => rfl)
    (fun i hi =>
      match i, hi with
      | 0, _ => rfl)
  simpa using h

/-- Claim C2 counterexample: on a 308 whose Supervisor-Locations parses but
whose Location text is not a parseable URL, the operation fails with the Url
error, yet the cache entry for the module has been overwritten with the
parsed topology, so the claim that no cache update occurs on an unparsable
location is false on this input. -/
theorem C2_counterexample :
    (send_request (R := Nat) (fun _ => none) (fun _ => some ["h:1"])
        (fun _ _ =>
          { status := 308, location := .text "not a url",
            supervisorLocations := .text "S", body := none })
        (fun _ => 0) "m" 5 exampleUrl []).result = .error .Url ∧
    cacheGet "m"
        (send_request (R := Nat) (fun _ => none) (fun _ => some ["h:1"])
          (fun _ _ =>
            { status := 308, location := .text "not a url",
              supervisorLocations := .text "S", body := none })
          (fun _ => 0) "m" 5 exampleUrl []).cache = some ["h:1"] ∧
    cacheGet "m" ([] : Cache) = none :=
  ⟨rfl, rfl, rfl⟩

/-- Claim C2 as amended: during processing of a single 308 response, the
cache entry is overwritten exactly when both headers extract as text and the
Supervisor-Locations text parses; a missing or non-text Location, a missing
or non-text Supervisor-Locations, or an unparsable Supervisor-Locations is a
terminal error with the cache untouched, while a Location text that fails to
parse as a URL is a terminal error with the cache already overwritten. -/
theorem C2_amended_cache_update_on_308 {R : Type} (pu : String → Option Url)
    (pl : String → Option (List String)) (t : Nat → Url → Response R)
    (rand : Nat → Nat) (module : String) (max_redirects : Nat)
    (initial_url : Url) (cache : Cache) (loc sup : Hdr) (b : Option R)
    (hmax : 0 < max_redirects)
    (htr : ∀ u, t 0 u =
      { status := 308, location := loc, supervisorLocations := sup,
        body := b }) :
    ((loc = .missing ∨ loc = .nonText) →
      (send_request pu pl t rand module max_redirects initial_url cache).result =
        .error .MissingLocationHeader ∧
      (send_request pu pl t rand module max_redirects initial_url cache).cache =
        cache) ∧
    (∀ ls, loc = .text ls → (sup = .missing ∨ sup = .nonText) →
      (send_request pu pl t rand module max_redirects initial_url cache).result =
        .error .MissingSupervisorLocationsHeader ∧
      (send_request pu pl t rand module max_redirects initial_url cache).cache =
        cache) ∧
    (∀ ls ss, loc = .text ls → sup = .text ss → pl ss = none →
      (send_request pu pl t rand module max_redirects initial_url cache).result =
        .error .InvalidSupervisorLocations ∧
      (send_request pu pl t rand module max_redirects initial_url cache).cache =
        cache) ∧
    (∀ ls ss sups, loc = .text ls → sup = .text ss → pl ss = some sups →
      pu ls = none →
      (send_request pu pl t rand module max_redirects initial_url cache).result =
        .error .Url ∧
      (send_request pu pl t rand module max_redirects initial_url cache).cache =
        cacheInsert module sups cache) := by
  obtain ⟨f, rfl⟩ : ∃ f, max_redirects = f + 1 := ⟨max_redirects - 1, by omega⟩
  obtain ⟨target, ht⟩ := get_request_url_ok cache initial_url module (rand 0)
  refine ⟨?_, ?_, ?_, ?_⟩
  · rintro (rfl | rfl) <;>
      simp [send_request, send_request_go, ht, htr]
  · rintro ls rfl (rfl | rfl) <;>
      simp [send_request, send_request_go, ht, htr]
  · rintro ls ss rfl rfl hplss
    simp [send_request, send_request_go, ht, htr, hplss]
  · rintro ls ss sups rfl rfl hplss hpuls
    simp [send_request, send_request_go, ht, htr, hplss, hpuls]

/-- Witness for the amended C2 at the unparsable-Location case. -/
theorem C2_amended_witness :
    (send_request (R := Nat) (fun _ => none) (fun _ => some ["h2:2"])
        (fun _ _ =>
          { status := 308, location := .text "bad",
            supervisorLocations := .text "T", body := none })
        (fun _ => 0) "m" 5 exampleUrl [("m", ["h1:1"])]).result =
      .error .Url ∧
    (send_request (R := Nat) (fun _ => none) (fun _ => some ["h2:2"])
        (fun _ _ =>
          { status := 308, location := .text "bad",
            supervisorLocations := .text "T", body := none })
        (fun _ => 0) "m" 5 exampleUrl [("m", ["h1:1"])]).cache =
      cacheInsert "m" ["h2:2"] [("m", ["h1:1"])] :=
  (C2_amended_cache_update_on_308 (R := Nat) (fun _ => none)
    (fun _ => some ["h2:2"])
    (fun _ _ =>
      { status := 308, location := .text "bad",
        supervisorLocations := .text "T", body := none })
    (fun _ => 0) "m" 5 exampleUrl [("m", ["h1:1"])] (.text "bad") (.text "T")
    none (by omega) (fun u => rfl)).2.2.2 "bad" "T" ["h2:2"] rfl rfl rfl rfl

/-- Claim C4 counterexample: a 308 response missing both headers returns
MissingLocationHeader, not MissingSupervisorLocationsHeader, so the claim
as stated fails when the Location header is missing as well. -/
theorem C4_counterexample :
    (send_request (R := Nat) (fun _ => none) (fun _ => none)
        (fun _ _ =>
          { status := 308, location := .missing,
            supervisorLocations := .missing, body := none })
        (fun _ => 0) "m" 5 exampleUrl []).result =
      .error .MissingLocationHeader ∧
    ClientError.MissingLocationHeader ≠
      ClientError.MissingSupervisorLocationsHeader :=
  ⟨rfl, by decide⟩

/-- Claim C4 as amended: for a first response that is a 308 whose Location
header extracts as text but whose Supervisor-Locations header is missing or
not convertible to text, send_request returns the
MissingSupervisorLocationsHeader error after one request and the cache,
including any pre-existing entry for the module, is exactly as before the
call. -/
theorem C4_amended_missing_supervisor_header {R : Type}
    (pu : String → Option Url) (pl : String → Option (List String))
    (t : Nat → Url → Response R) (rand : Nat → Nat) (module : String)
    (max_redirects : Nat) (initial_url : Url) (cache : Cache) (ls : String)
    (sup : Hdr) (b : Option R) (hmax : 0 < max_redirects)
    (htr : ∀ u, t 0 u =
      { status := 308, location := .text ls, supervisorLocations := sup,
        body := b })
    (hsup : sup = .missing ∨ sup = .nonText) :
    (send_request pu pl t rand module max_redirects initial_url cache).result =
      .error .MissingSupervisorLocationsHeader ∧
    (send_request pu pl t rand module max_redirects initial_url cache).cache =
      cache ∧
    (send_request pu pl t rand module max_redirects initial_url cache).requests =
      1 := by
  obtain ⟨f, rfl⟩ : ∃ f, max_redirects = f + 1 := ⟨max_redirects - 1, by omega⟩
  obtain ⟨target, ht⟩ := get_request_url_ok cache initial_url module (rand 0)
  rcases hsup with rfl | rfl <;>
    simp [send_request, send_request_go, ht, htr]

/-- Witness for the amended C4 with a pre-existing cache entry. -/
theorem C4_amended_witness :
    (send_request (R := Nat) (fun _ => none) (fun _ => none)
        (fun _ _ =>
          { status := 308, location := .text "L",
            supervisorLocations := .missing, body := none })
        (fun _ => 0) "m" 5 exampleUrl [("m", ["old:1"])]).result =
      .error .MissingSupervisorLocationsHeader ∧
    (send_request (R := Nat) (fun _ => none) (fun _ => none)
        (fun _ _ =>
          { status := 308, location := .text "L",
            supervisorLocations := .missing, body := none })
        (fun _ => 0) "m" 5 exampleUrl [("m", ["old:1"])]).cache =
      [("m", ["old:1"])] ∧
    (send_request (R := Nat) (fun _ => none) (fun _ => none)
        (fun _ _ =>
          { status := 308, location := .text "L",
            supervisorLocations := .missing, body := none })
        (fun _ => 0) "m" 5 exampleUrl [("m", ["old:1"])]).requests = 1 :=
  C4_amended_missing_supervisor_header (R := Nat) (fun _ => none)
    (fun _ => none)
    (fun _ _ =>
      { status := 308, location := .text "L",
        supervisorLocations := .missing, body := none })
    (fun _ => 0) "m" 5 exampleUrl [("m", ["old:1"])] "L" .missing none
    (by omega) (fun u => rfl) (Or.inl rfl)

/-- Claim C6: when the first response carries a status that is neither 200
nor 308, send_request returns the UnexpectedStatus error carrying exactly
that status code and the rendered contacted URL, after exactly one request,
with the cache untouched. -/
theorem C6_unexpected_status_terminal {R : Type} (pu : String → Option Url)
    (pl : String → Option (List String)) (t : Nat → Url → Response R)
    (rand : Nat → Nat) (module : String) (max_redirects : Nat)
    (initial_url : Url) (cache : Cache) (s : Nat) (loc sup : Hdr)
    (b : Option R) (hmax : 0 < max_redirects)
    (htr : ∀ u, t 0 u =
      { status := s, location := loc, supervisorLocations := sup, body := b })
    (h200 : s ≠ 200) (h308 : s ≠ 308) :
    ∃ target, get_request_url cache initial_url module (rand 0) = .ok target ∧
      (send_request pu pl t rand module max_redirects initial_url cache).result =
        .error (.UnexpectedStatus s target.render) ∧
      (send_request pu pl t rand module max_redirects initial_url cache).requests =
        1 ∧
      (send_request pu pl t rand module max_redirects initial_url cache).cache =
        cache := by
  obtain ⟨f, rfl⟩ : ∃ f, max_redirects = f + 1 := ⟨max_redirects - 1, by omega⟩
  obtain ⟨target, ht⟩ := get_request_url_ok cache initial_url module (rand 0)
  refine ⟨target, ht, ?_, ?_, ?_⟩ <;>
    simp [send_request, send_request_go, ht, htr, h200, h308]

/-- Witness for C6 with a 500 response. -/
theorem C6_witness :
    ∃ target, get_request_url [] exampleUrl "m" 0 = .ok target ∧
      (send_request (R := Nat) (fun _ => none) (fun _ => none)
          (fun _ _ =>
            { status := 500, location := .missing,
              supervisorLocations := .missing, body := none })
          (fun _ => 0) "m" 5 exampleUrl []).result =
        .error (.UnexpectedStatus 500 target.render) ∧
      (send_request (R := Nat) (fun _ => none) (fun _ => none)
          (fun _ _ =>
            { status := 500, location := .missing,
              supervisorLocations := .missing, body := none })
          (fun _ => 0) "m" 5 exampleUrl []).requests = 1 ∧
      (send_request (R := Nat) (fun _ => none) (fun _ => none)
          (fun _ _ =>
            { status := 500, location := .missing,
              supervisorLocations := .missing, body := none })
          (fun _ => 0) "m" 5 exampleUrl []).cache = [] :=
  C6_unexpected_status_terminal (R := Nat) (fun _ => none) (fun _ => none)
    (fun _ _ =>
      { status := 500, location := .missing,
        supervisorLocations := .missing, body := none })
    (fun _ => 0) "m" 5 exampleUrl [] 500 .missing .missing none (by omega)
    (fun u => rfl) (by decide) (by decide)

end RamaRust
